import Mathlib

/-!
Verification of the api-gateway-template request pipeline.

This file gives a shallow embedding of the gateway's error taxonomy, global
exception filter, circuit breaker, rate limiter (throttler service and guard),
JWT auth guard, upload size validation and response standardization, translated
from the TypeScript sources, and proves the specification's claims about them.
-/

namespace ApiGateway

/-- `pat` occurs as a contiguous run inside `l` (substring search on
character lists, structurally recursive). -/
def listIncludes (l pat : List Char) : Bool :=
  match l with
  | [] => pat.isEmpty
  | _ :: rest => pat.isPrefixOf l || listIncludes rest pat

/-- Returns true when `pat` occurs inside `s` (JS `String.prototype.includes`). -/
def strIncludes (s pat : String) : Bool :=
  listIncludes s.data pat.data

/-- JS truthiness of an optional string field: present and non-empty. -/
def isTruthyStr (o : Option String) : Bool :=
  match o with
  | some s => !s.isEmpty
  | none => false

/-! ## Exceptions (src/core/exceptions)

`BaseException` (base.exception.ts) builds a response object
`{error, message[, errorCode][, validationErrors]}` and carries an HTTP status. -/

structure BaseExc where
  errorType : String
  message : String
  statusCode : Nat
  errorCode : Option String := none
  validationErrors : Option (List (String × String)) := none
deriving DecidableEq, Repr

/-- `ServiceUnavailableException` (connection-exceptions.ts). -/
def serviceUnavailableException (service : Option String) : BaseExc :=
  let serviceMsg := match service with
    | some s => s ++ " service"
    | none => "service"
  { errorType := "ServiceUnavailable"
    message := "The " ++ serviceMsg ++ " is currently unavailable. Please try again later."
    statusCode := 503
    errorCode := some "ERR_SERVICE_UNAVAILABLE" }

/-- `GatewayTimeoutException` (connection-exceptions.ts). -/
def gatewayTimeoutException : BaseExc :=
  { errorType := "GatewayTimeout"
    message := "The server did not receive a timely response from an upstream server."
    statusCode := 504
    errorCode := some "ERR_GATEWAY_TIMEOUT" }

/-- `ResourceNotFoundException` (resource-exceptions file). -/
def resourceNotFoundException (resourceType identifier : String) : BaseExc :=
  { errorType := "NotFound"
    message := "The " ++ resourceType ++ " with identifier " ++ identifier ++ " could not be found."
    statusCode := 404
    errorCode := some "ERR_RESOURCE_NOT_FOUND" }

/-- `FileTooLargeException` (validation-exceptions.ts). -/
def fileTooLargeException : BaseExc :=
  { errorType := "FileTooLarge"
    message := "File size exceeds the limit."
    statusCode := 413
    errorCode := some "ERR_FILE_TOO_LARGE" }

/-- `RateLimitExceededException` (rate-limit-exceptions.ts), without the
optional reset-time suffix. Defined in the repo but, notably, never thrown by
the throttler guard. -/
def rateLimitExceededException (scope : String) : BaseExc :=
  { errorType := "TooManyRequests"
    message := "Too many " ++ scope ++ "s, please try again later."
    statusCode := 429
    errorCode := some "ERR_RATE_LIMIT_EXCEEDED" }

/-! ## Exceptions reaching the global filter -/

/-- The argument a NestJS `HttpException` was constructed with: either an
object literal (the filter reads its `error`, `message`, `errorCode` and
`validationErrors` fields; other fields such as `statusCode` are ignored by
the filter) or a bare string. -/
inductive HttpExcResponse where
  | objRes (error : Option String) (message : Option String)
      (errorCode : Option String) (validationErrors : Option (List (String × String)))
  | strRes (s : String)
deriving DecidableEq, Repr

/-- The body attached to an axios-style error response; the filter spreads it
verbatim into the envelope, so a `success` field carried by the upstream body
survives into the client-visible envelope. -/
structure UpstreamErrData where
  error : Option String := none
  message : Option String := none
  errorCode : Option String := none
  success : Option Bool := none
deriving DecidableEq, Repr

/-- An axios-style `error.response` (status plus optional JSON body). -/
structure UpstreamResponse where
  status : Option Nat := none
  data : Option UpstreamErrData := none
deriving DecidableEq, Repr

/-- A plain JS `Error` as inspected by the filter: transport `code`,
`message`, and an optional attached upstream response. -/
structure JsError where
  code : Option String := none
  message : String := ""
  response : Option UpstreamResponse := none
deriving DecidableEq, Repr

/-- What can arrive at `AllExceptionsFilter.catch`, in the order the filter's
`instanceof` chain tests it. `other` covers non-`Error` throws, which keep the
filter's default 500 response. -/
inductive CaughtException where
  | base (e : BaseExc)
  | http (status : Nat) (resp : HttpExcResponse)
  | jsError (e : JsError)
  | other
deriving DecidableEq, Repr

/-! ## AllExceptionsFilter (src/core/filters/all-exception.filter.ts) -/

/-- Request data the filter reads: `request.url` and the `x-request-id` header. -/
structure ReqInfo where
  url : String
  requestId : Option String := none
deriving DecidableEq, Repr

/-- The client-visible error envelope the filter writes. `success` is `none`
unless an upstream error body carrying a `success` field was spread through. -/
structure ErrEnvelope where
  error : String
  message : String
  errorCode : Option String := none
  validationErrors : Option (List (String × String)) := none
  success : Option Bool := none
  timestamp : String
  path : String
  requestId : Option String := none
deriving DecidableEq, Repr

/-- `getErrorTypeFromStatus`: fallback mapping from HTTP status to error kind. -/
def getErrorTypeFromStatus (status : Nat) : String :=
  match status with
  | 400 => "BadRequest"
  | 401 => "Unauthorized"
  | 403 => "Forbidden"
  | 404 => "NotFound"
  | 409 => "Conflict"
  | 422 => "ValidationError"
  | 429 => "TooManyRequests"
  | 504 => "GatewayTimeout"
  | 413 => "PayloadTooLarge"
  | 503 => "ServiceUnavailable"
  | _ => "InternalServerError"

/-- `getDefaultMessageForStatus`: fallback messages per status. -/
def getDefaultMessageForStatus (status : Nat) : String :=
  match status with
  | 400 => "The request was malformed or contained invalid parameters."
  | 401 => "Authentication is required to access this resource."
  | 403 => "You do not have permission to access this resource."
  | 404 => "The requested resource could not be found."
  | 409 => "The request could not be completed due to a conflict with the current state of the resource."
  | 422 => "The request was well-formed but contained invalid fields."
  | 429 => "Too many requests have been sent in a given amount of time."
  | 504 => "The server did not receive a timely response from an upstream server."
  | 503 => "The service is currently unavailable. Please try again later."
  | 413 => "File size exceeds the limit."
  | _ => "An unexpected error occurred while processing the request."

/-- The error's `code`/`message` match the filter's timeout test
(`ETIMEDOUT`, `ECONNABORTED`, or a message containing `timeout`/`Timeout`). -/
def isTimeoutError (code : Option String) (message : String) : Bool :=
  code == some "ETIMEDOUT" || code == some "ECONNABORTED" ||
    (!message.isEmpty && (strIncludes message "timeout" || strIncludes message "Timeout"))

/-- The error's `code`/`message` match the filter's connection-error test
(`ECONNREFUSED`, `ENOTFOUND`, or a message containing `connect`). -/
def isConnError (code : Option String) (message : String) : Bool :=
  code == some "ECONNREFUSED" || code == some "ENOTFOUND" ||
    (!message.isEmpty && strIncludes message "connect")

/-- `err.response.status || 500`: a missing or zero (falsy) status falls back
to 500. -/
def statusOr500 (st : Option Nat) : Nat :=
  match st with
  | some s => if s = 0 then 500 else s
  | none => 500

/-- The branch dispatch of `AllExceptionsFilter.catch`: the `instanceof`
chain that picks the status and the raw envelope, before the filter's
trailing fixups. `now` stands for the RFC3339 timestamp taken at formatting
time. -/
def filterCatchCore (req : ReqInfo) (now : String) (exc : CaughtException) : Nat × ErrEnvelope :=
  match exc with
    | .base e =>
        (e.statusCode,
          { error := e.errorType, message := e.message, errorCode := e.errorCode,
            validationErrors := e.validationErrors, timestamp := now, path := req.url : ErrEnvelope })
    | .http st resp =>
        match resp with
        | .objRes err msg code verrs =>
            let errorType := if isTruthyStr err then err.getD "" else getErrorTypeFromStatus st
            let errorType := if errorType = "Bad Request" then "BadRequest" else errorType
            (st,
              { error := errorType,
                message := if isTruthyStr msg then msg.getD "" else getDefaultMessageForStatus st,
                errorCode := if isTruthyStr code then code else none,
                validationErrors := verrs, timestamp := now, path := req.url : ErrEnvelope })
        | .strRes s =>
            (st,
              { error := getErrorTypeFromStatus st,
                message := if s.isEmpty then getDefaultMessageForStatus st else s,
                timestamp := now, path := req.url : ErrEnvelope })
    | .jsError e =>
        if isTimeoutError e.code e.message then
          (504,
            { error := "GatewayTimeout",
              message := "The server did not receive a timely response from an upstream server.",
              errorCode := some "ERR_GATEWAY_TIMEOUT", timestamp := now, path := req.url : ErrEnvelope })
        else if isConnError e.code e.message then
          (503,
            { error := "ServiceUnavailable",
              message := "The service is currently unavailable. Please try again later.",
              errorCode := some "ERR_SERVICE_UNAVAILABLE", timestamp := now, path := req.url : ErrEnvelope })
        else
          match e.response with
          | some resp =>
              match resp.data with
              | some d =>
                  let st := statusOr500 resp.status
                  if isTruthyStr d.error && isTruthyStr d.message then
                    -- verbatim pass-through of the upstream error body
                    let derr := if d.error = some "Bad Request" then some "BadRequest" else d.error
                    (st,
                      { error := derr.getD "", message := d.message.getD "",
                        errorCode := d.errorCode, success := d.success,
                        timestamp := now, path := req.url : ErrEnvelope })
                  else
                    (st,
                      { error := getErrorTypeFromStatus st,
                        message := if isTruthyStr d.message then d.message.getD ""
                          else if e.message.isEmpty then getDefaultMessageForStatus st else e.message,
                        timestamp := now, path := req.url : ErrEnvelope })
              | none =>
                  (500, { error := "UnexpectedError", message := e.message,
                          timestamp := now, path := req.url : ErrEnvelope })
          | none =>
              (500, { error := "UnexpectedError", message := e.message,
                      timestamp := now, path := req.url : ErrEnvelope })
    | .other =>
        (500, { error := "InternalServerError", message := "An unexpected error occurred.",
                timestamp := now, path := req.url : ErrEnvelope })

/-- The trailing fixups of `AllExceptionsFilter.catch`, applied to every
branch's result in source order: the `Bad Request` rename, the status-413
(`PAYLOAD_TOO_LARGE`) overwrite, and the `x-request-id` stamp. -/
def filterFinalize (req : ReqInfo) (now : String) (p : Nat × ErrEnvelope) : Nat × ErrEnvelope :=
  let status := p.1
  let env := p.2
  let env := if env.error = "Bad Request" then { env with error := "BadRequest" } else env
  let env :=
    if status = 413 then
      ({ error := "PayloadTooLarge", message := "File size exceeds the limit.",
         errorCode := some "ERR_PAYLOAD_TOO_LARGE", timestamp := now, path := req.url } : ErrEnvelope)
    else env
  let env := match req.requestId with
    | some rid => { env with requestId := some rid }
    | none => env
  (status, env)

/-- `AllExceptionsFilter.catch`, as the pure map from the caught exception to
the `(status, envelope)` pair written to the client. -/
def filterCatch (req : ReqInfo) (now : String) (exc : CaughtException) : Nat × ErrEnvelope :=
  filterFinalize req now (filterCatchCore req now exc)

/-- The fixed error-kind taxonomy of spec §7. -/
def errorTaxonomy : List String :=
  ["BadRequest", "Unauthorized", "Forbidden", "NotFound", "Conflict",
   "ValidationError", "TooManyRequests", "PayloadTooLarge", "GatewayTimeout",
   "ServiceUnavailable", "InternalServerError"]

/-- The exception is a pass-through of an upstream error body whose `success`
field was `true` — the only way `success` can appear in a filter envelope. -/
def passesThroughSuccess (exc : CaughtException) : Bool :=
  match exc with
  | .jsError e =>
      match e.response with
      | some resp =>
          match resp.data with
          | some d => d.success == some true
          | none => false
      | none => false
  | _ => false

/-! ## CircuitBreaker (telemetry.service.ts, class CircuitBreaker) -/

/-- `CircuitState`; the source's `OPEN` is rendered `opened` (keyword clash). -/
inductive CircuitState where
  | closed
  | opened
  | halfOpen
deriving DecidableEq, Repr

/-- `CircuitOptions`. -/
structure CircuitOptions where
  failureThreshold : Nat
  resetTimeout : Nat
  halfOpenAttempts : Nat
deriving DecidableEq, Repr

/-- The defaults assigned in the `CircuitBreaker` class body. -/
def defaultCircuitOptions : CircuitOptions :=
  { failureThreshold := 3, resetTimeout := 30000, halfOpenAttempts := 2 }

/-- The mutable per-upstream breaker record. -/
structure CircuitBreaker where
  state : CircuitState := .closed
  failureCount : Nat := 0
  lastError : Option CaughtException := none
  nextAttempt : Nat := 0
  halfOpenSuccesses : Nat := 0
deriving DecidableEq, Repr

namespace CircuitBreaker

/-- `trip()`: go `OPEN` and schedule the next attempt. -/
def trip (opts : CircuitOptions) (now : Nat) (c : CircuitBreaker) : CircuitBreaker :=
  { c with state := .opened, nextAttempt := now + opts.resetTimeout }

/-- `reset()`: back to a fresh `CLOSED` breaker. -/
def reset (c : CircuitBreaker) : CircuitBreaker :=
  { c with
    state := .closed
    failureCount := 0
    lastError := none
    nextAttempt := 0
    halfOpenSuccesses := 0 }

/-- `checkState()`: an `OPEN` breaker past `nextAttempt` moves to `HALF_OPEN`;
returns the updated breaker and whether the call is admitted (`false` means
the source throws `ServiceUnavailableException`). -/
def checkState (now : Nat) (c : CircuitBreaker) : CircuitBreaker × Bool :=
  let c := if c.state = .opened ∧ now ≥ c.nextAttempt then
      { c with state := .halfOpen, halfOpenSuccesses := 0 }
    else c
  if c.state = .opened then (c, false) else (c, true)

/-- `onSuccess()`. -/
def onSuccess (opts : CircuitOptions) (c : CircuitBreaker) : CircuitBreaker :=
  if c.state = .halfOpen then
    let c := { c with halfOpenSuccesses := c.halfOpenSuccesses + 1 }
    if c.halfOpenSuccesses ≥ opts.halfOpenAttempts then c.reset else c
  else if c.state = .closed then { c with failureCount := 0 }
  else c

/-- `onFailure(error)`. -/
def onFailure (opts : CircuitOptions) (now : Nat) (err : CaughtException)
    (c : CircuitBreaker) : CircuitBreaker :=
  let c := { c with lastError := some err }
  if c.state = .halfOpen then c.trip opts now
  else if c.state = .closed then
    let c := { c with failureCount := c.failureCount + 1 }
    if c.failureCount ≥ opts.failureThreshold then c.trip opts now else c
  else c

/-- `execute(fn)`: run `checkState`, then count any `ok`/`throw` outcome of
the wrapped call. `outcome` stands for the settled result of `fn()`; when the
call is rejected it is unused (the wrapped upstream is never contacted). The
source reads `Date.now()` once in `checkState` and again in `trip`; both are
modelled as the single instant `now`. -/
def execute {α : Type} (opts : CircuitOptions) (now : Nat) (serviceName : String)
    (c : CircuitBreaker) (outcome : Except CaughtException α) :
    CircuitBreaker × Except CaughtException α :=
  let (c, admitted) := c.checkState now
  if admitted then
    match outcome with
    | .ok v => (c.onSuccess opts, .ok v)
    | .error e => (c.onFailure opts now e, .error e)
  else
    (c, .error (.base (serviceUnavailableException (some serviceName))))

end CircuitBreaker

/-! ## ServiceAService.handleError (service-a service file) -/

/-- An axios `error.response` as `handleError` reads it: the HTTP status and
the JSON body that a non-404 error forwards verbatim into a new
`HttpException`. -/
structure ServiceAResponse where
  status : Option Nat := none
  data : Option HttpExcResponse := none
deriving DecidableEq, Repr

/-- The axios error as `handleError` inspects it; `configUrl` is
`error.config.url`, used to recover the resource id on a 404. -/
structure ServiceAError where
  code : Option String := none
  message : Option String := none
  response : Option ServiceAResponse := none
  configUrl : String := ""
deriving DecidableEq, Repr

/-- The characters after the last occurrence of `c` (the last piece of a
single-character split, i.e. `split(c).pop()`); `cur` accumulates the current
piece in reverse. -/
def lastSegmentAux (c : Char) (cur : List Char) : List Char → List Char
  | [] => cur.reverse
  | x :: xs => if x = c then lastSegmentAux c [] xs else lastSegmentAux c (x :: cur) xs

/-- The characters before the first occurrence of `c` (the first piece of a
single-character split, i.e. `split(c)[0]`). -/
def takeUntilChar (c : Char) : List Char → List Char
  | [] => []
  | x :: xs => if x = c then [] else x :: takeUntilChar c xs

/-- The last URL path segment with any query string stripped:
`error.config.url.split('/').pop().split('?')[0]`. -/
def resourceIdFromUrl (url : String) : String :=
  String.mk (takeUntilChar '?' (lastSegmentAux '/' [] url.data))

/-- `ServiceAService.handleError`: every branch throws; the result is the
exception raised into the circuit-breaker-wrapped call. A non-2xx upstream
response always lands in one of the throwing branches. -/
def handleError (err : ServiceAError) : CaughtException :=
  if isTimeoutError err.code (err.message.getD "") then
    .base gatewayTimeoutException
  else if isConnError err.code (err.message.getD "") then
    .base (serviceUnavailableException (some "Service A"))
  else
    match err.response with
    | some resp =>
        if resp.status = some 404 then
          .base (resourceNotFoundException "item" (resourceIdFromUrl err.configUrl))
        else
          match resp.data with
          | some d => .http (statusOr500 resp.status) d
          | none => .http (statusOr500 resp.status)
              (.objRes (some "Unknown error") (some "Service A request failed") none none)
    | none =>
        .http 500 (.objRes (some "InternalServerError") (some "Service A request failed") none none)

/-! ## ThrottlerService (src/core/throttler/throttler.service.ts) -/

/-- The `RateLimitResult` returned by `checkRateLimit`. -/
structure RateLimitResult where
  limited : Bool
  current : Int
  limit : Int
  remaining : Int
  resetTime : Nat
deriving DecidableEq, Repr

/-- The `limitMap` built in the constructor. Every configured value is a
non-zero number, so an entry being present coincides with the JS truthiness
test `this.limitMap[key]`. -/
def limitMap (defaultLimit : Int) (k : String) : Option Int :=
  match k with
  | "POST:user" => some 5
  | "PUT:user" => some 10
  | "POST:product" => some 5
  | "PUT:product" => some 10
  | "POST:file" => some 10
  | "PUT:file" => some 15
  | "POST:function" => some 15
  | "PUT:function" => some 20
  | "DELETE:function" => some 10
  | "POST:version" => some 5
  | "DELETE:version" => some 5
  | "POST:data" => some 20
  | "DELETE:data" => some 10
  | "POST:chat" => some 60
  | "GET" => some defaultLimit
  | "DELETE" => some 20
  | _ => none

/-- The `ttlMap` built in the constructor (seconds). -/
def ttlMap (defaultTtl : Nat) (k : String) : Option Nat :=
  match k with
  | "POST:user" => some defaultTtl
  | "PUT:user" => some defaultTtl
  | "POST:product" => some defaultTtl
  | "PUT:product" => some defaultTtl
  | "POST:file" => some defaultTtl
  | "PUT:file" => some defaultTtl
  | "POST:function" => some defaultTtl
  | "PUT:function" => some defaultTtl
  | "DELETE:function" => some defaultTtl
  | "POST:version" => some defaultTtl
  | "DELETE:version" => some defaultTtl
  | "POST:data" => some defaultTtl
  | "DELETE:data" => some defaultTtl
  | "POST:sync" => some (defaultTtl * 2)
  | "POST:chat" => some defaultTtl
  | "GET" => some defaultTtl
  | "DELETE" => some (defaultTtl * 2)
  | _ => none

/-- The limit/TTL resolution at the top of `checkRateLimit`:
`(method, resource)` entry first, then `(method)`, then the defaults
(`ttl = this.ttlMap[key] || this.defaultTtl`, all entries non-zero). -/
def resolveLimitTtl (defaultLimit : Int) (defaultTtl : Nat) (method : String)
    (resource : Option String) : Int × Nat :=
  match resource with
  | some r =>
      match limitMap defaultLimit (method ++ ":" ++ r) with
      | some l => (l, (ttlMap defaultTtl (method ++ ":" ++ r)).getD defaultTtl)
      | none =>
          match limitMap defaultLimit method with
          | some l => (l, (ttlMap defaultTtl method).getD defaultTtl)
          | none => (defaultLimit, defaultTtl)
  | none =>
      match limitMap defaultLimit method with
      | some l => (l, (ttlMap defaultTtl method).getD defaultTtl)
      | none => (defaultLimit, defaultTtl)

/-- `RedisService.incrementByThrottler`: the KV increment, whose own `catch`
swallows any Redis error and returns `0` — it never throws. `kv` is the
outcome of the underlying `incrBy` round-trip. -/
def incrementByThrottler (kv : Except String Int) : Int :=
  match kv with
  | .ok v => v
  | .error _ => 0

/-- `ThrottlerService.checkRateLimit`. Because `incrementByThrottler` never
throws, the method's own `catch` branch (fail-open with `current = 0`) is
unreachable and the body below is total. `nowMs` is `Date.now()`. -/
def checkRateLimit (defaultLimit : Int) (defaultTtl : Nat) (nowMs : Nat)
    (method : String) (resource : Option String) (kv : Except String Int) :
    RateLimitResult :=
  let limit := (resolveLimitTtl defaultLimit defaultTtl method resource).1
  let ttl := (resolveLimitTtl defaultLimit defaultTtl method resource).2
  let current := incrementByThrottler kv
  let resetTime := (nowMs + 999) / 1000 + ttl
  let remaining := max 0 (limit - current)
  { limited := decide (current > limit), current := current, limit := limit,
    remaining := remaining, resetTime := resetTime }

/-! ## ThrottlerGuard (src/core/throttler/throttler.guard.ts) -/

/-- `isResourceIntensiveOperation`. -/
def isResourceIntensiveOperation (method : String) (resource : Option String) : Bool :=
  match resource with
  | some r =>
      ["POST:user", "POST:product", "POST:file", "POST:sync", "POST:data",
       "DELETE:data"].contains (method ++ ":" ++ r)
  | none => false

/-- The plain `HttpException` the guard throws when a check is limited; note
the body's `error` field is the spaced string `'Too Many Requests'` and no
`errorCode` is attached (the body's extra `statusCode` field is ignored by the
exception filter). -/
def tooManyRequestsHttpException (message : String) : CaughtException :=
  .http 429 (.objRes (some "Too Many Requests") (some message) none none)

/-- `ThrottlerGuard.canActivate`, as the pure map from its inputs to the
response headers it sets and either a pass (`ok true`) or the thrown
exception. `tenant` is the `(tenantName, tenantId)` pair when both are truthy
on `request.user`; `tenantDecision`/`decision` are the outcomes of the two
`checkRateLimit` calls (an `error` tenant outcome is logged and ignored). -/
def throttlerCanActivate (isPublic skipThrottle : Bool) (path : String)
    (enableTenantRateLimits : Bool) (tenant : Option (String × String))
    (method : String) (resource : Option String)
    (tenantDecision : Except String RateLimitResult) (decision : RateLimitResult) :
    List (String × String) × Except CaughtException Bool :=
  if isPublic then ([], .ok true)
  else if skipThrottle then ([], .ok true)
  else if path = "/health" ∨ path = "/api/health" then ([], .ok true)
  else
    let tenantBlock :=
      if enableTenantRateLimits ∧ tenant.isSome ∧
          isResourceIntensiveOperation method resource then
        match tenantDecision with
        | .ok td =>
            if td.limited then
              some ([("X-Tenant-RateLimit-Limit", toString td.limit),
                     ("X-Tenant-RateLimit-Remaining", toString td.remaining),
                     ("X-Tenant-RateLimit-Reset", toString td.resetTime)],
                tooManyRequestsHttpException "Tenant rate limit exceeded, please try again later.")
            else none
        | .error _ => none
      else none
    match tenantBlock with
    | some (hs, exc) => (hs, .error exc)
    | none =>
        let hs := [("X-RateLimit-Limit", toString decision.limit),
                   ("X-RateLimit-Remaining", toString decision.remaining),
                   ("X-RateLimit-Reset", toString decision.resetTime)]
        if decision.limited then
          (hs, .error (tooManyRequestsHttpException "Too many requests, please try again later."))
        else (hs, .ok true)

/-! ## JwtAuthGuard (auth jwt guard file) -/

/-- One entry of the token's `userAccess` list. -/
structure TenantAccess where
  tenantId : String
  type : String
  tenantName : Option String := none
deriving DecidableEq, Repr

/-- The user data returned by `AuthenticationProvider.validateToken`. -/
structure TokenUserData where
  userId : Option String := none
  userAccess : Option (List TenantAccess) := none
  tenantName : Option String := none
deriving DecidableEq, Repr

/-- The `request.user` object the guard installs. The source spreads
`...userData` last, but sets `userData.roles = roles` beforehand, so the
installed roles are exactly the derived ones. -/
structure AuthedUser where
  id : String
  tenantId : String
  tenantName : String
  roles : List String
deriving DecidableEq, Repr

/-- The guard's failure modes. The JWT guard only ever produces
`unauthorized`; `forbidden` exists in the type so "never `Forbidden`" is a
statement about values, not a vacuity of the type. -/
inductive GuardException where
  | unauthorized (msg : String)
  | forbidden (msg : String)
deriving DecidableEq, Repr

/-- `JwtAuthGuard.canActivate` in bearer mode, as a pure function.
`existingUserRoles` is `request.user?.roles` (any present list, even empty,
short-circuits the guard); `tokenResult` is the outcome of
`authService.validateToken`. Failures thrown inside the `try` block
(`Access denied` for a missing or non-matching `userAccess`) are caught and
re-thrown as `UnauthorizedException('Invalid token')`, which is what the
caller observes. `ok none` means the guard passed without installing a user. -/
def jwtCanActivate (isPublic : Bool) (path : String)
    (existingUserRoles : Option (List String))
    (authHeader : Option String) (tenantIdHeader : Option String)
    (tokenResult : Except String TokenUserData)
    (paramsTenantName bodyTenantName queryTenantName : Option String) :
    Except GuardException (Option AuthedUser) :=
  if isPublic then .ok none
  else if path = "/health" ∨ path = "/api/health" then .ok none
  else if existingUserRoles.isSome then .ok none
  else
    match authHeader with
    | none => .error (.unauthorized "Missing authorization token")
    | some _ =>
        match tenantIdHeader with
        | none => .error (.unauthorized "Missing tenant ID header")
        | some tid =>
            match tokenResult with
            | .error _ => .error (.unauthorized "Invalid token")
            | .ok userData =>
                match userData.userAccess with
                | none => .error (.unauthorized "Invalid token")
                | some accessList =>
                    match accessList.find? (fun a => a.tenantId == tid) with
                    | none => .error (.unauthorized "Invalid token")
                    | some tenantAccess =>
                        let roles := if tenantAccess.type = "ADMIN" then ["admin"] else ["user"]
                        let tname := tenantAccess.tenantName <|> paramsTenantName <|>
                          bodyTenantName <|> queryTenantName <|> userData.tenantName
                        .ok (some
                          { id := userData.userId.getD "unknown"
                            tenantId := tid
                            tenantName := tname.getD "unknown"
                            roles := roles })

/-! ## Upload size validation (service-c controller) -/

/-- Modelled from the spec: the multipart upload pipe's size validation — the
`ParseFilePipe`/`MaxFileSizeValidator` pair is framework code outside this
repository. Spec §4.6 sets the limit at 10 MiB and §8 fixes the boundary
("File upload at exactly the size limit succeeds; size limit + 1 yields
PayloadTooLarge"). The controller's `exceptionFactory` maps a validation
failure to `FileTooLargeException`. -/
def uploadSizeCheck (size : Nat) : Except BaseExc Unit :=
  if size > 10 * 1024 * 1024 then .error fileTooLargeException else .ok ()

/-! ## ResponseUtils.standardizeResponse (shared/utils/response.utils.ts) -/

/-- JSON-like runtime values, as `standardizeResponse` discriminates them. -/
inductive JsonVal where
  | null
  | bool (b : Bool)
  | num (n : Int)
  | str (s : String)
  | arr (xs : List JsonVal)
  | obj (fields : List (String × JsonVal))

/-- JS truthiness of a value. -/
def JsonVal.truthy : JsonVal → Bool
  | .null => false
  | .bool b => b
  | .num n => n != 0
  | .str s => !s.isEmpty
  | .arr _ => true
  | .obj _ => true

/-- JS `typeof v === 'object'` (true for objects, arrays and `null`). -/
def JsonVal.isObjectType : JsonVal → Bool
  | .null => true
  | .arr _ => true
  | .obj _ => true
  | _ => false

/-- JS `k in v` for the values reachable here: property lookup on an object
(arrays carry only index keys, primitives none). -/
def JsonVal.hasKey (k : String) : JsonVal → Bool
  | .obj fields => fields.any (fun p => p.1 == k)
  | _ => false

/-- The guard condition of `standardizeResponse`:
`data && typeof data === 'object' && 'success' in data && 'data' in data`. -/
def hasEnvelopeShape (d : JsonVal) : Bool :=
  d.truthy && d.isObjectType && d.hasKey "success" && d.hasKey "data"

/-- `ResponseUtils.standardizeResponse`. -/
def standardizeResponse (d : JsonVal) : JsonVal :=
  if hasEnvelopeShape d then d
  else .obj [("success", .bool true), ("data", d)]

/-! ## Helper lemmas -/

theorem filterFinalize_fst (req : ReqInfo) (now : String) (p : Nat × ErrEnvelope) :
    (filterFinalize req now p).1 = p.1 := by
  simp only [filterFinalize]

theorem filterFinalize_success (req : ReqInfo) (now : String) (p : Nat × ErrEnvelope) :
    (filterFinalize req now p).2.success = if p.1 = 413 then none else p.2.success := by
  simp only [filterFinalize]
  split_ifs <;> cases req.requestId <;> simp_all

theorem filterFinalize_error (req : ReqInfo) (now : String) (p : Nat × ErrEnvelope)
    (h413 : p.1 ≠ 413) (hbr : p.2.error ≠ "Bad Request") :
    (filterFinalize req now p).2.error = p.2.error := by
  simp only [filterFinalize]
  split_ifs <;> cases req.requestId <;> simp_all

theorem filterFinalize_errorCode (req : ReqInfo) (now : String) (p : Nat × ErrEnvelope)
    (h413 : p.1 ≠ 413) :
    (filterFinalize req now p).2.errorCode = p.2.errorCode := by
  simp only [filterFinalize]
  split_ifs <;> cases req.requestId <;> simp_all

theorem limitMap_nonneg (d : Int) (hd : 0 ≤ d) (k : String) (v : Int)
    (h : limitMap d k = some v) : 0 ≤ v := by
  unfold limitMap at h
  split at h
  all_goals first
    | exact Option.noConfusion h
    | (injection h with h2; omega)

theorem resolveLimit_nonneg (d : Int) (t : Nat) (hd : 0 ≤ d) (m : String)
    (r : Option String) : 0 ≤ (resolveLimitTtl d t m r).1 := by
  unfold resolveLimitTtl
  cases r <;> dsimp only
  case none =>
    cases h : limitMap d m with
    | none => exact hd
    | some l => exact limitMap_nonneg d hd m l h
  case some rs =>
    cases h : limitMap d (m ++ ":" ++ rs) with
    | some l => exact limitMap_nonneg d hd _ l h
    | none =>
        cases h2 : limitMap d m with
        | none => exact hd
        | some l => exact limitMap_nonneg d hd m l h2

/-! ## Claim theorems -/

/-- C2: for every rate-limit check whose KV increment yields the
post-increment value `current`, the decision satisfies
`limited ⇔ current > limit` and `remaining = max(0, limit − current)`, and
every returned decision (also on a failed increment) has `remaining ≥ 0`. -/
theorem checkRateLimit_decision (defaultLimit : Int) (defaultTtl nowMs : Nat)
    (method : String) (resource : Option String) (current : Int)
    (kv : Except String Int) :
    ((checkRateLimit defaultLimit defaultTtl nowMs method resource (.ok current)).limited = true ↔
      current > (checkRateLimit defaultLimit defaultTtl nowMs method resource (.ok current)).limit) ∧
    (checkRateLimit defaultLimit defaultTtl nowMs method resource (.ok current)).current = current ∧
    (checkRateLimit defaultLimit defaultTtl nowMs method resource (.ok current)).remaining =
      max 0 ((checkRateLimit defaultLimit defaultTtl nowMs method resource (.ok current)).limit - current) ∧
    0 ≤ (checkRateLimit defaultLimit defaultTtl nowMs method resource kv).remaining := by
  refine ⟨?_, rfl, rfl, ?_⟩
  · simp only [checkRateLimit, incrementByThrottler, decide_eq_true_eq]
  · exact le_max_left 0 _

/-- C6: a KV failure during a rate-limit check never propagates: the check
still returns a decision, with `limited = false` and `remaining = limit`
(fail-open; the Redis wrapper absorbs the error and yields a count of 0). -/
theorem checkRateLimit_fail_open (defaultLimit : Int) (defaultTtl nowMs : Nat)
    (method : String) (resource : Option String) (errMsg : String)
    (hdl : 0 ≤ defaultLimit) :
    (checkRateLimit defaultLimit defaultTtl nowMs method resource (.error errMsg)).limited = false ∧
    (checkRateLimit defaultLimit defaultTtl nowMs method resource (.error errMsg)).remaining =
      (checkRateLimit defaultLimit defaultTtl nowMs method resource (.error errMsg)).limit ∧
    (checkRateLimit defaultLimit defaultTtl nowMs method resource (.error errMsg)).current = 0 := by
  have hl : 0 ≤ (resolveLimitTtl defaultLimit defaultTtl method resource).1 :=
    resolveLimit_nonneg defaultLimit defaultTtl hdl method resource
  refine ⟨?_, ?_, rfl⟩
  · simp only [checkRateLimit, incrementByThrottler, decide_eq_false_iff_not]
    omega
  · simp only [checkRateLimit, incrementByThrottler]
    rw [sub_zero]
    exact max_eq_right hl

/-- Witness for C6 at the configured defaults (`THROTTLE_LIMIT = 60`). -/
theorem checkRateLimit_fail_open_witness :
    0 ≤ (60 : Int) ∧
    ((checkRateLimit 60 60 5000 "GET" none (.error "redis down")).limited = false ∧
      (checkRateLimit 60 60 5000 "GET" none (.error "redis down")).remaining =
        (checkRateLimit 60 60 5000 "GET" none (.error "redis down")).limit ∧
      (checkRateLimit 60 60 5000 "GET" none (.error "redis down")).current = 0) :=
  ⟨by norm_num, checkRateLimit_fail_open 60 60 5000 "GET" none "redis down" (by norm_num)⟩

theorem hasEnvelopeShape_iff (d : JsonVal) :
    hasEnvelopeShape d = true ↔
      ∃ fs, d = JsonVal.obj fs ∧ fs.any (fun p => p.1 == "success") = true ∧
        fs.any (fun p => p.1 == "data") = true := by
  cases d <;>
    simp [hasEnvelopeShape, JsonVal.truthy, JsonVal.isObjectType, JsonVal.hasKey]

theorem hasEnvelopeShape_wrap (d : JsonVal) :
    hasEnvelopeShape (.obj [("success", .bool true), ("data", d)]) = true := by
  simp [hasEnvelopeShape, JsonVal.truthy, JsonVal.isObjectType, JsonVal.hasKey]

/-- C10: `standardizeResponse` is idempotent; it returns its argument
unchanged exactly when the argument is a (truthy, hence non-null) object
carrying both a `success` and a `data` key; in every other case it returns
the wrapper `{success: true, data: d}`. -/
theorem standardizeResponse_idempotent (d : JsonVal) :
    standardizeResponse (standardizeResponse d) = standardizeResponse d ∧
    (standardizeResponse d = d ↔
      ∃ fs, d = JsonVal.obj fs ∧ fs.any (fun p => p.1 == "success") = true ∧
        fs.any (fun p => p.1 == "data") = true) ∧
    (standardizeResponse d = d ∨
      standardizeResponse d = .obj [("success", .bool true), ("data", d)]) := by
  have hwrap := hasEnvelopeShape_wrap d
  by_cases h : hasEnvelopeShape d = true
  · refine ⟨?_, ?_, Or.inl ?_⟩
    · simp [standardizeResponse, h]
    · exact iff_of_true (by simp [standardizeResponse, h]) ((hasEnvelopeShape_iff d).mp h)
    · simp [standardizeResponse, h]
  · have hne : standardizeResponse d = .obj [("success", .bool true), ("data", d)] := by
      simp [standardizeResponse, h]
    refine ⟨?_, ?_, Or.inr hne⟩
    · rw [hne]
      simp [standardizeResponse, hwrap]
    · constructor
      · intro heq
        exact absurd ((hasEnvelopeShape_iff d).mp (heq ▸ hne ▸ hwrap)) (by
          intro hx
          exact h ((hasEnvelopeShape_iff d).mpr hx))
      · intro hx
        exact absurd ((hasEnvelopeShape_iff d).mpr hx) h

/-- C4: `Closed` success resets the consecutive-failure count; `Closed`
failure increments it and trips to `Open` exactly when the count reaches
`failureThreshold` (default 3); `HalfOpen` success closes the breaker exactly
when consecutive successes reach `halfOpenAttempts` (default 2); `HalfOpen`
failure trips back to `Open`. -/
theorem circuitBreaker_transition_rules :
    defaultCircuitOptions.failureThreshold = 3 ∧
    defaultCircuitOptions.halfOpenAttempts = 2 ∧
    (∀ (opts : CircuitOptions) (c : CircuitBreaker), c.state = .closed →
      (c.onSuccess opts).failureCount = 0 ∧ (c.onSuccess opts).state = .closed) ∧
    (∀ (opts : CircuitOptions) (now : Nat) (err : CaughtException) (c : CircuitBreaker),
      c.state = .closed →
      (c.onFailure opts now err).failureCount = c.failureCount + 1 ∧
      ((c.onFailure opts now err).state = .opened ↔
        c.failureCount + 1 ≥ opts.failureThreshold)) ∧
    (∀ (opts : CircuitOptions) (c : CircuitBreaker), c.state = .halfOpen →
      ((c.onSuccess opts).state = .closed ↔
        c.halfOpenSuccesses + 1 ≥ opts.halfOpenAttempts)) ∧
    (∀ (opts : CircuitOptions) (now : Nat) (err : CaughtException) (c : CircuitBreaker),
      c.state = .halfOpen → (c.onFailure opts now err).state = .opened) := by
  refine ⟨rfl, rfl, ?_, ?_, ?_, ?_⟩
  · intro opts c h
    simp [CircuitBreaker.onSuccess, h]
  · intro opts now err c h
    simp only [CircuitBreaker.onFailure, h]
    split_ifs with h1 h2 <;> simp_all [CircuitBreaker.trip]
  · intro opts c h
    simp only [CircuitBreaker.onSuccess, h]
    split_ifs with h1 <;> simp_all [CircuitBreaker.reset]
  · intro opts now err c h
    simp [CircuitBreaker.onFailure, CircuitBreaker.trip, h]

/-- Witness for C4 at concrete breakers and the default options. -/
theorem circuitBreaker_transition_rules_witness :
    (CircuitBreaker.onSuccess defaultCircuitOptions
      { state := .closed, failureCount := 2 }).failureCount = 0 ∧
    (CircuitBreaker.onFailure defaultCircuitOptions 0 .other
      { state := .closed, failureCount := 2 }).state = .opened ∧
    (CircuitBreaker.onSuccess defaultCircuitOptions
      { state := .halfOpen, halfOpenSuccesses := 1 }).state = .closed ∧
    (CircuitBreaker.onFailure defaultCircuitOptions 0 .other
      { state := .halfOpen }).state = .opened :=
  ⟨(circuitBreaker_transition_rules.2.2.1 defaultCircuitOptions
      { state := .closed, failureCount := 2 } rfl).1,
   ((circuitBreaker_transition_rules.2.2.2.1 defaultCircuitOptions 0 .other
      { state := .closed, failureCount := 2 } rfl).2).mpr (by decide),
   (circuitBreaker_transition_rules.2.2.2.2.1 defaultCircuitOptions
      { state := .halfOpen, halfOpenSuccesses := 1 } rfl).mpr (by decide),
   circuitBreaker_transition_rules.2.2.2.2.2 defaultCircuitOptions 0 .other
      { state := .halfOpen } rfl⟩

/-- C5: a call reaching an `Open` breaker whose reset time has arrived first
moves it to `HalfOpen` and is then admitted (the wrapped outcome passes
through); before the reset time the call is rejected with the 503
`ServiceUnavailable`/`ERR_SERVICE_UNAVAILABLE` exception and the result is
independent of the wrapped outcome — the upstream is never contacted. -/
theorem circuitBreaker_open_probe {α : Type} (opts : CircuitOptions) (now : Nat)
    (name : String) (c : CircuitBreaker) (outcome : Except CaughtException α)
    (h : c.state = .opened) :
    (now ≥ c.nextAttempt →
      ((c.checkState now).1.state = .halfOpen ∧ (c.checkState now).2 = true ∧
        (CircuitBreaker.execute opts now name c outcome).2 = outcome)) ∧
    (now < c.nextAttempt →
      ((CircuitBreaker.execute opts now name c outcome).2 =
          .error (.base (serviceUnavailableException (some name))) ∧
        (CircuitBreaker.execute opts now name c outcome).1.state = .opened ∧
        (serviceUnavailableException (some name)).statusCode = 503 ∧
        (serviceUnavailableException (some name)).errorCode = some "ERR_SERVICE_UNAVAILABLE" ∧
        ∀ outcome2 : Except CaughtException α,
          CircuitBreaker.execute opts now name c outcome =
            CircuitBreaker.execute opts now name c outcome2)) := by
  constructor
  · intro hge
    have hadm : c.checkState now = ({ c with state := .halfOpen, halfOpenSuccesses := 0 }, true) := by
      simp [CircuitBreaker.checkState, h, hge]
    refine ⟨by rw [hadm], by rw [hadm], ?_⟩
    cases outcome <;> simp [CircuitBreaker.execute, hadm]
  · intro hlt
    have hrej : c.checkState now = (c, false) := by
      simp [CircuitBreaker.checkState, h, Nat.not_le.mpr hlt]
    refine ⟨?_, ?_, rfl, rfl, ?_⟩
    · simp [CircuitBreaker.execute, hrej]
    · simp [CircuitBreaker.execute, hrej, h]
    · intro outcome2
      simp [CircuitBreaker.execute, hrej]

/-- Witness for C5: an `Open` breaker with `nextAttempt = 500`, probed at
`now = 600` (admitted as `HalfOpen`) and at `now = 100` (rejected). -/
theorem circuitBreaker_open_probe_witness :
    (({ state := .opened, nextAttempt := 500 : CircuitBreaker }.checkState 600).1.state
        = .halfOpen ∧
      (CircuitBreaker.execute (α := Unit) defaultCircuitOptions 600 "service-b"
        { state := .opened, nextAttempt := 500 } (.ok ())).2 = .ok ()) ∧
    ((CircuitBreaker.execute (α := Unit) defaultCircuitOptions 100 "service-b"
        { state := .opened, nextAttempt := 500 } (.ok ())).2 =
      .error (.base (serviceUnavailableException (some "service-b")))) :=
  ⟨⟨((circuitBreaker_open_probe defaultCircuitOptions 600 "service-b"
      { state := .opened, nextAttempt := 500 } (.ok ()) rfl).1 (by decide)).1,
    ((circuitBreaker_open_probe defaultCircuitOptions 600 "service-b"
      { state := .opened, nextAttempt := 500 } (.ok ()) rfl).1 (by decide)).2.2⟩,
   ((circuitBreaker_open_probe defaultCircuitOptions 100 "service-b"
      { state := .opened, nextAttempt := 500 } (.ok ()) rfl).2 (by decide)).1⟩

/-- C1 counterexample: an upstream HTTP 404 response — neither a transport
error, a timeout, nor a 5xx — is rethrown by `handleError` and the breaker
counts it: a fresh `Closed` breaker's consecutive-failure count rises from 0
to 1, contradicting the claim that a non-2xx response is not counted. -/
theorem notFound_counted_as_breaker_failure :
    handleError
        { message := some "Request failed with status code 404"
          response := some { status := some 404 }
          configUrl := "http://service-a/items/abc?x=1" } =
      .base (resourceNotFoundException "item" "abc") ∧
    (resourceNotFoundException "item" "abc").statusCode = 404 ∧
    404 < 500 ∧
    (CircuitBreaker.execute (α := Unit) defaultCircuitOptions 1000 "service-a" {}
        (.error (.base (resourceNotFoundException "item" "abc")))).1.failureCount = 1 := by
  refine ⟨?_, rfl, by omega, rfl⟩
  decide

/-- C1 amended: any thrown outcome of the wrapped call — with no inspection
of its nature — increments a `Closed` breaker's failure count, and
`handleError` converts every upstream HTTP error response, 404 included, into
a throw; hence non-2xx upstream responses do count toward tripping the
breaker. -/
theorem every_throw_counts_as_breaker_failure :
    (∀ (opts : CircuitOptions) (now : Nat) (name : String) (c : CircuitBreaker)
      (e : CaughtException), c.state = .closed →
      (CircuitBreaker.execute (α := Unit) opts now name c (.error e)).1.failureCount =
        c.failureCount + 1) ∧
    (∀ cfgUrl : String,
      handleError { response := some { status := some 404 }, configUrl := cfgUrl } =
        .base (resourceNotFoundException "item" (resourceIdFromUrl cfgUrl))) := by
  constructor
  · intro opts now name c e h
    have hadm : c.checkState now = (c, true) := by
      simp [CircuitBreaker.checkState, h]
    simp only [CircuitBreaker.execute, hadm, CircuitBreaker.onFailure, h]
    split_ifs <;> simp_all [CircuitBreaker.trip]
  · intro cfgUrl
    rfl

/-- Witness for C1's amended claim: a `Closed` breaker with one prior failure
and a concrete 404-derived throw. -/
theorem every_throw_counts_witness :
    (CircuitBreaker.execute (α := Unit) defaultCircuitOptions 7 "service-a"
        { state := .closed, failureCount := 1 }
        (.error (.base (resourceNotFoundException "item" "xyz")))).1.failureCount = 2 ∧
    handleError { response := some { status := some 404 }, configUrl := "http://a/items/xyz" } =
      .base (resourceNotFoundException "item" (resourceIdFromUrl "http://a/items/xyz")) :=
  ⟨every_throw_counts_as_breaker_failure.1 defaultCircuitOptions 7 "service-a"
      { state := .closed, failureCount := 1 }
      (.base (resourceNotFoundException "item" "xyz")) rfl,
   every_throw_counts_as_breaker_failure.2 "http://a/items/xyz"⟩

/-- C8: in bearer mode (no prior authentication, `Authorization` present) on
a guarded route: a missing tenant header is rejected `Unauthorized`; a
validated token whose `userAccess` has no entry for the requested tenant is
rejected `Unauthorized` (never `Forbidden`); and with a matching entry the
installed principal's roles are exactly `["admin"]` when the entry's type is
`ADMIN` and exactly `["user"]` otherwise. -/
theorem jwt_bearer_mode (path auth : String)
    (tokenResult : Except String TokenUserData) (ptn btn qtn : Option String)
    (hpath : ¬(path = "/health" ∨ path = "/api/health")) :
    (jwtCanActivate false path none (some auth) none tokenResult ptn btn qtn =
      .error (.unauthorized "Missing tenant ID header")) ∧
    (∀ (tid : String) (u : TokenUserData) (l : List TenantAccess),
      tokenResult = .ok u → u.userAccess = some l →
      (∀ a ∈ l, a.tenantId ≠ tid) →
      jwtCanActivate false path none (some auth) (some tid) tokenResult ptn btn qtn =
        .error (.unauthorized "Invalid token")) ∧
    (∀ (tid : String) (u : TokenUserData) (l : List TenantAccess) (a : TenantAccess),
      tokenResult = .ok u → u.userAccess = some l →
      l.find? (fun x => x.tenantId == tid) = some a →
      ∃ usr : AuthedUser,
        jwtCanActivate false path none (some auth) (some tid) tokenResult ptn btn qtn =
          .ok (some usr) ∧
        usr.roles = (if a.type = "ADMIN" then ["admin"] else ["user"]) ∧
        usr.tenantId = tid) := by
  refine ⟨?_, ?_, ?_⟩
  · simp [jwtCanActivate, hpath]
  · intro tid u l hu hl hnone
    have hfind : l.find? (fun x => x.tenantId == tid) = none := by
      rw [List.find?_eq_none]
      intro x hx
      simp [hnone x hx]
    simp [jwtCanActivate, hpath, hu, hl, hfind]
  · intro tid u l a hu hl hfind
    refine ⟨{ id := u.userId.getD "unknown"
              tenantId := tid
              tenantName := (a.tenantName <|> ptn <|> btn <|> qtn <|> u.tenantName).getD "unknown"
              roles := if a.type = "ADMIN" then ["admin"] else ["user"] }, ?_, rfl, rfl⟩
    simp [jwtCanActivate, hpath, hu, hl, hfind]

/-- Witness for C8 at a concrete token carrying one `ADMIN` entry for
tenant `t1`, requested with tenant header `t1`, then with `t2`, and with the
header missing. -/
theorem jwt_bearer_mode_witness :
    (jwtCanActivate false "/api/service-a/items" none (some "Bearer tok") none
        (.ok { userAccess := some [{ tenantId := "t1", type := "ADMIN" }] })
        none none none =
      .error (.unauthorized "Missing tenant ID header")) ∧
    (jwtCanActivate false "/api/service-a/items" none (some "Bearer tok") (some "t2")
        (.ok { userAccess := some [{ tenantId := "t1", type := "ADMIN" }] })
        none none none =
      .error (.unauthorized "Invalid token")) ∧
    (∃ usr : AuthedUser,
      jwtCanActivate false "/api/service-a/items" none (some "Bearer tok") (some "t1")
          (.ok { userAccess := some [{ tenantId := "t1", type := "ADMIN" }] })
          none none none =
        .ok (some usr) ∧
      usr.roles = (if ("ADMIN" : String) = "ADMIN" then ["admin"] else ["user"]) ∧
      usr.tenantId = "t1") :=
  ⟨(jwt_bearer_mode "/api/service-a/items" "Bearer tok"
      (.ok { userAccess := some [{ tenantId := "t1", type := "ADMIN" }] })
      none none none (by decide)).1,
   (jwt_bearer_mode "/api/service-a/items" "Bearer tok"
      (.ok { userAccess := some [{ tenantId := "t1", type := "ADMIN" }] })
      none none none (by decide)).2.1 "t2" _ _ rfl rfl (by decide),
   (jwt_bearer_mode "/api/service-a/items" "Bearer tok"
      (.ok { userAccess := some [{ tenantId := "t1", type := "ADMIN" }] })
      none none none (by decide)).2.2 "t1" _ _ { tenantId := "t1", type := "ADMIN" }
      rfl rfl (by decide)⟩

/-- C9 counterexample: the envelope written for a `FileTooLargeException`
(status 413) carries `errorCode = ERR_PAYLOAD_TOO_LARGE`, not the exception's
own `ERR_FILE_TOO_LARGE`, because the filter's 413 special case overwrites
the whole envelope. -/
theorem fileTooLarge_code_overwritten :
    filterCatch { url := "/api/service-c/files" } "ts" (.base fileTooLargeException) =
      (413, { error := "PayloadTooLarge", message := "File size exceeds the limit.",
              errorCode := some "ERR_PAYLOAD_TOO_LARGE", timestamp := "ts",
              path := "/api/service-c/files" }) ∧
    fileTooLargeException.errorCode = some "ERR_FILE_TOO_LARGE" ∧
    (filterCatch { url := "/api/service-c/files" } "ts"
        (.base fileTooLargeException)).2.errorCode ≠ some "ERR_FILE_TOO_LARGE" := by
  refine ⟨by decide, rfl, by decide⟩

/-- C9 amended: an upload larger than 10 MiB is rejected via
`FileTooLargeException` and the client receives a 413 `PayloadTooLarge`
envelope whose `errorCode` is `ERR_PAYLOAD_TOO_LARGE` (the exception's
`ERR_FILE_TOO_LARGE` is overwritten by the filter's 413 special case); an
upload at or below the limit is not rejected for size. -/
theorem upload_size_rejection (size : Nat) (req : ReqInfo) (now : String) :
    (10 * 1024 * 1024 < size →
      uploadSizeCheck size = .error fileTooLargeException ∧
      (filterCatch req now (.base fileTooLargeException)).1 = 413 ∧
      (filterCatch req now (.base fileTooLargeException)).2.error = "PayloadTooLarge" ∧
      (filterCatch req now (.base fileTooLargeException)).2.errorCode =
        some "ERR_PAYLOAD_TOO_LARGE") ∧
    (size ≤ 10 * 1024 * 1024 → uploadSizeCheck size = .ok ()) := by
  constructor
  · intro hgt
    refine ⟨?_, ?_, ?_, ?_⟩
    · simp [uploadSizeCheck, hgt]
    · rw [filterCatch, filterFinalize_fst]
      rfl
    · simp [filterCatch, filterCatchCore, filterFinalize]
      cases req.requestId <;> rfl
    · simp [filterCatch, filterCatchCore, filterFinalize]
      cases req.requestId <;> rfl
  · intro hle
    simp [uploadSizeCheck, Nat.not_lt.mpr hle]

/-- Witness for C9 at one byte over and exactly at the 10 MiB limit. -/
theorem upload_size_rejection_witness :
    (10 * 1024 * 1024 < 10485761 ∧
      uploadSizeCheck 10485761 = .error fileTooLargeException ∧
      (filterCatch { url := "/api/service-c/files" } "ts"
        (.base fileTooLargeException)).2.errorCode = some "ERR_PAYLOAD_TOO_LARGE") ∧
    (10485760 ≤ 10 * 1024 * 1024 ∧ uploadSizeCheck 10485760 = .ok ()) :=
  ⟨⟨by norm_num,
    ((upload_size_rejection 10485761 { url := "/api/service-c/files" } "ts").1
      (by norm_num)).1,
    ((upload_size_rejection 10485761 { url := "/api/service-c/files" } "ts").1
      (by norm_num)).2.2.2⟩,
   ⟨by norm_num,
    (upload_size_rejection 10485760 { url := "/api/service-c/files" } "ts").2
      (by norm_num)⟩⟩

/-- C7 counterexample: a request blocked by the regular rate-limit check is
rejected through a plain `HttpException` whose envelope's `error` field is
the spaced string `"Too Many Requests"` — not `"TooManyRequests"` — and
which carries no `errorCode` at all (in particular not
`ERR_RATE_LIMIT_EXCEEDED`). -/
theorem blocked_request_envelope_counterexample :
    (throttlerCanActivate false false "/api/service-a/items" false none "POST" (some "item")
        (.error "tenant check skipped")
        { limited := true, current := 61, limit := 60, remaining := 0, resetTime := 100 }).2 =
      .error (tooManyRequestsHttpException "Too many requests, please try again later.") ∧
    filterCatch { url := "/api/service-a/items" } "ts"
        (tooManyRequestsHttpException "Too many requests, please try again later.") =
      (429, { error := "Too Many Requests",
              message := "Too many requests, please try again later.",
              timestamp := "ts", path := "/api/service-a/items" }) ∧
    ("Too Many Requests" : String) ≠ "TooManyRequests" := by
  refine ⟨rfl, by decide, by decide⟩

/-- C7 amended: every request blocked by the (regular) rate limiter receives
HTTP 429, but its envelope's `error` field is `"Too Many Requests"` and it
carries no `errorCode`: the guard throws a plain `HttpException` instead of
the repo's `RateLimitExceededException`, so `ERR_RATE_LIMIT_EXCEEDED` never
reaches the client. -/
theorem blocked_request_envelope (path method : String) (resource : Option String)
    (tenantDecision : Except String RateLimitResult) (d : RateLimitResult)
    (req : ReqInfo) (now : String)
    (hpath : ¬(path = "/health" ∨ path = "/api/health")) (hlim : d.limited = true) :
    (throttlerCanActivate false false path false none method resource tenantDecision d).2 =
      .error (tooManyRequestsHttpException "Too many requests, please try again later.") ∧
    (throttlerCanActivate false false path false none method resource tenantDecision d).1 =
      [("X-RateLimit-Limit", toString d.limit),
       ("X-RateLimit-Remaining", toString d.remaining),
       ("X-RateLimit-Reset", toString d.resetTime)] ∧
    (filterCatch req now
      (tooManyRequestsHttpException "Too many requests, please try again later.")).1 = 429 ∧
    (filterCatch req now
      (tooManyRequestsHttpException "Too many requests, please try again later.")).2.error =
      "Too Many Requests" ∧
    (filterCatch req now
      (tooManyRequestsHttpException "Too many requests, please try again later.")).2.errorCode =
      none := by
  refine ⟨?_, ?_, ?_, ?_, ?_⟩
  · simp [throttlerCanActivate, hpath, hlim]
  · simp [throttlerCanActivate, hpath, hlim]
  · rw [filterCatch, filterFinalize_fst]
    rfl
  · rw [filterCatch,
      filterFinalize_error req now _
        (by show (429 : Nat) ≠ 413; decide)
        (by show ("Too Many Requests" : String) ≠ "Bad Request"; decide)]
    rfl
  · rw [filterCatch, filterFinalize_errorCode req now _ (by show (429 : Nat) ≠ 413; decide)]
    rfl

/-- Witness for C7's amended claim at a concrete blocked decision. -/
theorem blocked_request_envelope_witness :
    (¬(("/api/service-b/reports" : String) = "/health" ∨
        ("/api/service-b/reports" : String) = "/api/health")) ∧
    ((throttlerCanActivate false false "/api/service-b/reports" false none "POST"
        (some "report") (.error "na")
        { limited := true, current := 61, limit := 60, remaining := 0, resetTime := 90 }).2 =
      .error (tooManyRequestsHttpException "Too many requests, please try again later.") ∧
    (filterCatch { url := "/api/service-b/reports" } "ts"
      (tooManyRequestsHttpException "Too many requests, please try again later.")).2.errorCode =
      none) :=
  ⟨by decide,
   (blocked_request_envelope "/api/service-b/reports" "POST" (some "report")
      (.error "na")
      { limited := true, current := 61, limit := 60, remaining := 0, resetTime := 90 }
      { url := "/api/service-b/reports" } "ts" (by decide) rfl).1,
   (blocked_request_envelope "/api/service-b/reports" "POST" (some "report")
      (.error "na")
      { limited := true, current := 61, limit := 60, remaining := 0, resetTime := 90 }
      { url := "/api/service-b/reports" } "ts" (by decide) rfl).2.2.2.2⟩

/-- C3 counterexample: a plain `Error` with no transport code and no attached
response is formatted as status 500 with `error = "UnexpectedError"` — a kind
outside the fixed taxonomy — and no `errorCode` at all. -/
theorem unexpectedError_outside_taxonomy :
    filterCatch { url := "/api/items" } "ts" (.jsError { message := "boom" }) =
      (500, { error := "UnexpectedError", message := "boom",
              timestamp := "ts", path := "/api/items" }) ∧
    errorTaxonomy.contains "UnexpectedError" = false ∧
    400 ≤ 500 := by
  refine ⟨by decide, by decide, by decide⟩

/-- C3 amended: no envelope synthesized by the filter itself carries
`success: true` (`success` can only appear through the verbatim pass-through
of an upstream error body); envelopes built from the gateway's own
`BaseException`s (other than status-413 ones, which are overwritten) carry
exactly that exception's kind and `errorCode`; but the generic `Error`
fallback emits the kind `"UnexpectedError"`, which lies outside the fixed
taxonomy, with no `errorCode`. -/
theorem filter_envelope_partial_taxonomy :
    (∀ (req : ReqInfo) (now : String) (exc : CaughtException),
      (filterCatch req now exc).2.success = some true →
      passesThroughSuccess exc = true) ∧
    (∀ (req : ReqInfo) (now : String) (e : BaseExc),
      e.statusCode ≠ 413 → e.errorType ≠ "Bad Request" →
      (filterCatch req now (.base e)).2.error = e.errorType ∧
      (filterCatch req now (.base e)).2.errorCode = e.errorCode) ∧
    (∀ (req : ReqInfo) (now : String) (je : JsError),
      je.response = none →
      isTimeoutError je.code je.message = false →
      isConnError je.code je.message = false →
      (filterCatch req now (.jsError je)).1 = 500 ∧
      (filterCatch req now (.jsError je)).2.error = "UnexpectedError" ∧
      (filterCatch req now (.jsError je)).2.errorCode = none ∧
      errorTaxonomy.contains "UnexpectedError" = false) := by
  refine ⟨?_, ?_, ?_⟩
  · intro req now exc h
    rw [filterCatch, filterFinalize_success] at h
    by_cases h413 : (filterCatchCore req now exc).1 = 413
    · rw [if_pos h413] at h
      exact Option.noConfusion h
    · rw [if_neg h413] at h
      clear h413
      cases exc with
      | base e => simp [filterCatchCore] at h
      | http st resp =>
          cases resp with
          | objRes err msg code verrs => simp [filterCatchCore] at h
          | strRes s => simp [filterCatchCore] at h
      | other => simp [filterCatchCore] at h
      | jsError e =>
          obtain ⟨code, msg, resp⟩ := e
          simp only [filterCatchCore] at h
          by_cases htime : isTimeoutError code msg = true
          · rw [if_pos htime] at h
            simp at h
          · rw [if_neg htime] at h
            by_cases hconn : isConnError code msg = true
            · rw [if_pos hconn] at h
              simp at h
            · rw [if_neg hconn] at h
              cases resp with
              | none => simp at h
              | some r =>
                  obtain ⟨st, data⟩ := r
                  cases data with
                  | none => simp at h
                  | some d =>
                      simp only at h
                      split at h
                      · simp at h
                        simp [passesThroughSuccess, h]
                      · simp at h
  · intro req now e h413 hbr
    constructor
    · rw [filterCatch, filterFinalize_error req now _ h413 hbr]
      rfl
    · rw [filterCatch, filterFinalize_errorCode req now _ h413]
      rfl
  · intro req now je hresp htime hconn
    obtain ⟨code, msg, resp⟩ := je
    simp only at hresp htime hconn
    subst hresp
    have hcore : filterCatchCore req now (.jsError { code := code, message := msg }) =
        (500, { error := "UnexpectedError", message := msg,
                timestamp := now, path := req.url }) := by
      simp [filterCatchCore, htime, hconn]
    refine ⟨?_, ?_, ?_, by decide⟩
    · rw [filterCatch, filterFinalize_fst, hcore]
    · rw [filterCatch,
        filterFinalize_error req now _
          (by rw [hcore]; show (500 : Nat) ≠ 413; decide)
          (by rw [hcore]; show ("UnexpectedError" : String) ≠ "Bad Request"; decide),
        hcore]
    · rw [filterCatch,
        filterFinalize_errorCode req now _ (by rw [hcore]; show (500 : Nat) ≠ 413; decide),
        hcore]

/-- Witness for C3's amended claim: a pass-through upstream body with
`success: true`, a `NotFound` `BaseException`, and a bare `Error`. -/
theorem filter_envelope_partial_taxonomy_witness :
    passesThroughSuccess
      (.jsError { message := "bad"
                  response := some
                    { status := some 400
                      data := some
                        { error := some "BadRequest"
                          message := some "no"
                          success := some true } } }) = true ∧
    ((filterCatch { url := "/u" } "ts" (.base (resourceNotFoundException "item" "i7"))).2.error =
      (resourceNotFoundException "item" "i7").errorType ∧
      (filterCatch { url := "/u" } "ts"
        (.base (resourceNotFoundException "item" "i7"))).2.errorCode =
        (resourceNotFoundException "item" "i7").errorCode) ∧
    ((filterCatch { url := "/u" } "ts" (.jsError { message := "boom" })).1 = 500 ∧
      (filterCatch { url := "/u" } "ts" (.jsError { message := "boom" })).2.error =
        "UnexpectedError" ∧
      (filterCatch { url := "/u" } "ts" (.jsError { message := "boom" })).2.errorCode = none ∧
      errorTaxonomy.contains "UnexpectedError" = false) :=
  ⟨filter_envelope_partial_taxonomy.1 { url := "/u" } "ts"
      (.jsError { message := "bad"
                  response := some
                    { status := some 400
                      data := some
                        { error := some "BadRequest"
                          message := some "no"
                          success := some true } } }) (by decide),
   filter_envelope_partial_taxonomy.2.1 { url := "/u" } "ts"
      (resourceNotFoundException "item" "i7") (by decide) (by decide),
   filter_envelope_partial_taxonomy.2.2 { url := "/u" } "ts"
      { message := "boom" } rfl (by decide) (by decide)⟩

end ApiGateway
